import Mathlib

/-!
# Verification of the tonicengine frame loop (src/src/main.rs)

Shallow embedding of the swapchain lifecycle and frame-pacing loop of
`src/src/main.rs`.  The program is a winit/vulkano render loop:

* initial swapchain construction (lines 60-82),
* the event dispatch (`events_loop.run`, lines 212-309) with three arms:
  `CloseRequested` (214-216), `Resized` (217-219) and
  `RedrawEventsCleared` (220-306),
* the redraw arm: conditional swapchain rebuild (225-249), image
  acquisition (251-259), suboptimal flag (261-263), command recording
  (265-282) and submission / present / flush (284-305),
* `window_size_dependent_setup` (312-342), which sets the dynamic-state
  viewport from the image dimensions and builds one framebuffer per image.

GPU-side completion ordering is modelled by ghost frame identifiers: the
`previous_frame_end` future of the source is represented by the list of
frame ids whose submission-done signal it (transitively) covers, and each
submission records the set of frame ids it is ordered after together with
the acquire signal it joins.  Platform outcomes (acquire errors, flush
errors, swapchain-recreation errors, the window's current inner size) are
inputs of each tick.  A Rust `panic!`/`unwrap` failure is the `panicked`
outcome.
-/

/-- A 2-D extent in pixels (`[u32; 2]` in the source). -/
structure Extent where
  width : Nat
  height : Nat
deriving DecidableEq, Repr

/-- An RGBA colour; the source's `[0.0, 0.0, 1.0, 1.0]` clear value uses
only the exactly-representable values 0.0 and 1.0, kept here as naturals. -/
structure Color where
  r : Nat
  g : Nat
  b : Nat
  a : Nat
deriving DecidableEq, Repr

/-- The clear value of `main.rs` line 265: `[0.0, 0.0, 1.0, 1.0]`. -/
def blueClear : Color := ⟨0, 0, 1, 1⟩

/-- The fields of `surface.capabilities(physical)` that lines 60-70 read,
plus the extent bounds the spec's clamping rule refers to. -/
structure SurfaceCapabilities where
  minImageCount : Nat
  maxImageCount : Option Nat
  currentExtent : Option Extent
  minImageExtent : Extent
  maxImageExtent : Extent
deriving DecidableEq, Repr

/-- Line 68 of `main.rs`: the image count requested from
`Swapchain::start` is `capabilities.min_image_count`, unmodified. -/
def selectedNumImages (caps : SurfaceCapabilities) : Nat :=
  caps.minImageCount

/-- Line 63 of `main.rs`: the dimensions passed to the swapchain builder
are `capabilities.current_extent.unwrap_or([1280, 1024])`. -/
def selectedDimensions (caps : SurfaceCapabilities) : Extent :=
  caps.currentExtent.getD ⟨1280, 1024⟩

/-- Modelled from the spec's words for comparison (C6):
"image count = clamp(capabilities.min_image_count, 2, capabilities.max or
unbounded)". -/
def specNumImages (caps : SurfaceCapabilities) : Nat :=
  match caps.maxImageCount with
  | none => max caps.minImageCount 2
  | some m => min (max caps.minImageCount 2) m

/-- Componentwise clamp of an extent to bounds. -/
def clampExtent (e lo hi : Extent) : Extent :=
  ⟨min (max e.width lo.width) hi.width, min (max e.height lo.height) hi.height⟩

/-- Modelled from the spec's words for comparison (C7):
"extent = capabilities.current_extent if reported, else desiredExtent
clamped to (min,max)". -/
def specDimensions (caps : SurfaceCapabilities) (desired : Extent) : Extent :=
  match caps.currentExtent with
  | some e => e
  | none => clampExtent desired caps.minImageExtent caps.maxImageExtent

/-- State captured by the event-loop closure of `main.rs` lines 196-305,
together with ghost bookkeeping for GPU ordering.

* `swapchainGen` — generation counter of the current swapchain object;
  incremented by each successful `recreate()` (line 240).
* `swapchainExtent` — the dimensions the current swapchain was built with.
* `numImages` — number of presentable images (hence framebuffers) of the
  current set.
* `framebuffersGen` — the swapchain generation the current `framebuffers`
  vector (line 205 / 243) was built against.
* `viewportDims` — `dynamic_state.viewports` as set by
  `window_size_dependent_setup` (lines 319-324).
* `windowSize` — the window's current inner size, read at line 227.
* `recreateSwapchain` — the `recreate_swapchain` flag (line 208).
* `prevCovers` — ghost: the frame ids whose submission-done signal
  `previous_frame_end` transitively covers (`sync::now` covers none).
* `slotLast` — ghost: for each image index, the frame id of the last
  successfully flushed submission targeting that slot.
* `nextFrame` — ghost: the id the next submission will carry. -/
structure RenderState where
  swapchainGen : Nat
  swapchainExtent : Extent
  numImages : Nat
  framebuffersGen : Nat
  viewportDims : Extent
  windowSize : Extent
  recreateSwapchain : Bool
  prevCovers : List Nat
  slotLast : List (Nat × Nat)
  nextFrame : Nat
deriving DecidableEq, Repr

/-- Result of `vulkano::swapchain::acquire_next_image` (lines 251-259):
success carries the image index, the suboptimal flag and a ghost id for
the acquire future; `OutOfDate` is the recreate-and-return arm; any other
error hits the `panic!` arm (line 258). -/
inductive AcquireResult where
  | ok (imageNum : Nat) (suboptimal : Bool) (acquireId : Nat)
  | outOfDate
  | otherError
deriving DecidableEq, Repr

/-- Result of `then_signal_fence_and_flush()` as matched at lines 293-305:
`Ok`, `FlushError::OutOfDate`, or any other `FlushError` (which includes
`DeviceLost`); `deviceLost` is kept distinct so error classes can be told
apart, but lines 301-304 treat it identically to `otherError`. -/
inductive FlushResult where
  | ok
  | outOfDate
  | deviceLost
  | otherError
deriving DecidableEq, Repr

/-- Result of `swapchain.recreate().dimensions(d).build()` (line 229):
success, `SwapchainCreationError::UnsupportedDimensions` (the
return-early arm, line 236), or any other error (the `panic!` arm,
line 237). -/
inductive RebuildResult where
  | ok
  | unsupportedDimensions
  | otherError
deriving DecidableEq, Repr

/-- Platform outcomes consumed by one `RedrawEventsCleared` tick. -/
structure TickEnv where
  rebuildResult : RebuildResult
  acquireResult : AcquireResult
  flushResult : FlushResult
deriving DecidableEq, Repr

/-- Primitive operations of the rebuild block (lines 225-249), in the
order the source performs them. -/
inductive RebuildOp where
  | buildSwapchain (extent : Extent)
  | buildImageViews
  | replaceSwapchain
  | setViewport (extent : Extent)
  | buildFramebuffers
  | replaceFramebuffers
  | clearFlag
deriving DecidableEq, Repr

/-- Ops that construct parts of the new resource set. -/
def RebuildOp.isBuild : RebuildOp → Bool
  | .buildSwapchain _ => true
  | .buildImageViews => true
  | .buildFramebuffers => true
  | _ => false

/-- Ops that replace (drop the loop's handle to) parts of the old set. -/
def RebuildOp.isReplace : RebuildOp → Bool
  | .replaceSwapchain => true
  | .replaceFramebuffers => true
  | _ => false

/-- Whether no construction op occurs after a replacement op, i.e. the
new set is fully constructed before the old one starts being replaced. -/
def buildsPrecedeReplaces : Bool → List RebuildOp → Bool
  | _, [] => true
  | seenReplace, op :: rest =>
      if op.isBuild && seenReplace then false
      else buildsPrecedeReplaces (seenReplace || op.isReplace) rest

/-- The extents at which a swapchain build was attempted in a trace. -/
def rebuildAttempts (t : List RebuildOp) : List Extent :=
  t.filterMap fun op =>
    match op with
    | .buildSwapchain e => some e
    | _ => none

/-- How many times a trace actually installed a new swapchain. -/
def rebuildsDone (t : List RebuildOp) : Nat :=
  t.countP fun op =>
    match op with
    | .replaceSwapchain => true
    | _ => false

/-- Outcome of the conditional rebuild block. -/
inductive RebuildOutcome where
  | proceed (s : RenderState)
  | earlyRet (s : RenderState)
  | panicked
deriving DecidableEq, Repr

/-- Lines 225-249 of `main.rs`.  When `recreate_swapchain` is set the loop
reads the window's inner size (line 227) and attempts
`swapchain.recreate().dimensions(dimensions).build()`:

* on success it wraps the images in views (line 231), assigns
  `swapchain = new_swapchain` (line 240), then rebuilds the framebuffers —
  `window_size_dependent_setup` first sets the viewport (lines 319-324) and
  then builds one framebuffer per image — assigns them (line 243) and
  clears the flag (line 248);
* on `UnsupportedDimensions` it returns from the closure with all state
  (including the flag) untouched (line 236);
* on any other error it panics (line 237).

The returned trace lists the primitive operations in source order. -/
def rebuildStep (s : RenderState) (env : TickEnv) :
    RebuildOutcome × List RebuildOp :=
  if s.recreateSwapchain then
    match env.rebuildResult with
    | .ok =>
        (.proceed { s with
            swapchainGen := s.swapchainGen + 1
            swapchainExtent := s.windowSize
            framebuffersGen := s.swapchainGen + 1
            viewportDims := s.windowSize
            recreateSwapchain := false },
         [.buildSwapchain s.windowSize, .buildImageViews, .replaceSwapchain,
          .setViewport s.windowSize, .buildFramebuffers, .replaceFramebuffers,
          .clearFlag])
    | .unsupportedDimensions => (.earlyRet s, [.buildSwapchain s.windowSize])
    | .otherError => (.panicked, [.buildSwapchain s.windowSize])
  else (.proceed s, [])

/-- One recorded command of the per-frame command buffer
(lines 274-280). -/
inductive RecordOp where
  | beginRenderPass (fbGen : Nat) (fbIndex : Nat) (clear : Color)
  | draw (viewport : Extent) (vertexCount : Nat)
  | endRenderPass
deriving DecidableEq, Repr

/-- Lines 265-282: a fresh `AutoCommandBufferBuilder` is created each
frame and records `begin_render_pass(framebuffers[image_num], Inline,
clear_values)`, one `draw` of the 3-vertex triangle buffer under
`dynamic_state` (whose viewport is `viewport`), and `end_render_pass`.
The framebuffer is identified by the generation it was built against and
its index. -/
def record (fbGen fbIndex : Nat) (viewport : Extent) (vertexCount : Nat)
    (clear : Color) : List RecordOp :=
  [.beginRenderPass fbGen fbIndex clear, .draw viewport vertexCount,
   .endRenderPass]

def RecordOp.isBegin : RecordOp → Bool
  | .beginRenderPass _ _ _ => true
  | _ => false

def RecordOp.isDraw : RecordOp → Bool
  | .draw _ _ => true
  | _ => false

def RecordOp.isEnd : RecordOp → Bool
  | .endRenderPass => true
  | _ => false

/-- Ghost record of one submission (lines 284-291): the frame id, the
acquired image index, the acquire future joined at line 287, the frame
ids whose completion the joined `previous_frame_end` covers, the recorded
commands, and the flush outcome. -/
structure Submission where
  frameId : Nat
  imageNum : Nat
  acquireId : Nat
  waitFrames : List Nat
  commands : List RecordOp
  flush : FlushResult
deriving DecidableEq, Repr

/-- Why a tick returned early without submitting. -/
inductive SkipReason where
  | rebuildUnsupported
  | acquireOutOfDate
deriving DecidableEq, Repr

/-- Outcome of one `RedrawEventsCleared` tick. -/
inductive TickResult where
  | panicked
  | skipped (reason : SkipReason) (s : RenderState)
  | frame (s : RenderState) (sub : Submission)
deriving DecidableEq, Repr

/-- Last recorded submission frame id for an image slot. -/
def slotLookup (l : List (Nat × Nat)) (i : Nat) : Option Nat :=
  (l.find? fun p => p.1 == i).map (·.2)

/-- Record a successfully flushed submission `f` against slot `i`. -/
def slotUpdate (l : List (Nat × Nat)) (i f : Nat) : List (Nat × Nat) :=
  (i, f) :: l.filter fun p => p.1 != i

/-- Lines 265-305: command recording, submission and the flush match.
`s2` is the state after the suboptimal check.  Indexing
`framebuffers[image_num]` (line 275) panics when out of bounds.  The
submitted work is ordered after `previous_frame_end` joined with the
acquire future (lines 284-288).  The flush match (293-305):

* `Ok(future)` — `previous_frame_end` becomes the new fence future, which
  covers this frame and (by the join) everything the old one covered;
* `Err(FlushError::OutOfDate)` — sets `recreate_swapchain` and resets
  `previous_frame_end` to `sync::now` (covers nothing); the work was not
  flushed, so `slotLast` is unchanged;
* any other `Err` (including `DeviceLost`) — prints the error and resets
  `previous_frame_end` to `sync::now`; the loop continues. -/
def submitPhase (s2 : RenderState) (imageNum acqId : Nat)
    (fr : FlushResult) : TickResult :=
  if imageNum < s2.numImages then
    let sub : Submission :=
      ⟨s2.nextFrame, imageNum, acqId, s2.prevCovers,
       record s2.framebuffersGen imageNum s2.viewportDims 3 blueClear, fr⟩
    match fr with
    | .ok =>
        .frame { s2 with
            prevCovers := s2.nextFrame :: s2.prevCovers
            slotLast := slotUpdate s2.slotLast imageNum s2.nextFrame
            nextFrame := s2.nextFrame + 1 } sub
    | .outOfDate =>
        .frame { s2 with
            recreateSwapchain := true
            prevCovers := []
            nextFrame := s2.nextFrame + 1 } sub
    | .deviceLost =>
        .frame { s2 with prevCovers := [], nextFrame := s2.nextFrame + 1 } sub
    | .otherError =>
        .frame { s2 with prevCovers := [], nextFrame := s2.nextFrame + 1 } sub
  else .panicked

/-- Lines 251-263: `acquire_next_image` and the suboptimal check, then the
submit phase.  `OutOfDate` sets the flag and returns from the closure (no
submission this tick); any other acquire error panics (line 258); on
success, `suboptimal` sets the flag and the tick proceeds. -/
def acquirePhase (s1 : RenderState) (env : TickEnv) : TickResult :=
  match env.acquireResult with
  | .outOfDate => .skipped .acquireOutOfDate { s1 with recreateSwapchain := true }
  | .otherError => .panicked
  | .ok imageNum subopt acqId =>
      submitPhase (if subopt then { s1 with recreateSwapchain := true } else s1)
        imageNum acqId env.flushResult

/-- One full `RedrawEventsCleared` tick (lines 220-306):
`cleanup_finished` (line 221, a resource-release no-op for ordering), the
conditional rebuild, acquisition and submission.  Also returns the trace
of rebuild operations the tick performed. -/
def redrawTick (s : RenderState) (env : TickEnv) :
    TickResult × List RebuildOp :=
  match rebuildStep s env with
  | (.panicked, tr) => (.panicked, tr)
  | (.earlyRet s', tr) => (.skipped .rebuildUnsupported s', tr)
  | (.proceed s1, tr) => (acquirePhase s1 env, tr)

/-- Lines 217-219: a `WindowEvent::Resized` only sets
`recreate_swapchain = true`; the window's inner size now reports the new
extent.  No rebuild, acquisition or submission happens here. -/
def handleResize (s : RenderState) (e : Extent) : RenderState :=
  { s with windowSize := e, recreateSwapchain := true }

/-- Effect of the `CloseRequested` arm (lines 214-216). -/
structure CloseOutcome where
  exitRequested : Bool
  /-- Frame ids whose submission-done signal the handler waits on. -/
  waitedFrames : List Nat
  state : RenderState
deriving DecidableEq, Repr

/-- Lines 214-216: `CloseRequested` sets `ControlFlow::Exit` and nothing
else — it performs no wait on any outstanding signal and leaves the
loop state untouched. -/
def handleCloseRequested (s : RenderState) : CloseOutcome :=
  ⟨true, [], s⟩

/-- The loop state after startup (lines 60-210): swapchain built from the
capabilities at generation 0, `actualImages` presentable images returned
by the platform, framebuffers and viewport from
`window_size_dependent_setup` (line 205, sized to the image dimensions),
`recreate_swapchain = false` (line 208) and
`previous_frame_end = sync::now` (line 210), which covers no frame. -/
def initState (caps : SurfaceCapabilities) (actualImages : Nat) : RenderState :=
  { swapchainGen := 0
    swapchainExtent := selectedDimensions caps
    numImages := actualImages
    framebuffersGen := 0
    viewportDims := selectedDimensions caps
    windowSize := selectedDimensions caps
    recreateSwapchain := false
    prevCovers := []
    slotLast := []
    nextFrame := 0 }

/-- State carried out of a tick (the closure's captured state on the next
iteration); a panicked tick has no successor state. -/
def afterTick (s : RenderState) (env : TickEnv) : RenderState :=
  match (redrawTick s env).1 with
  | .panicked => s
  | .skipped _ s' => s'
  | .frame s' _ => s'

/-- The submission a tick produced, if any. -/
def subOfTick (s : RenderState) (env : TickEnv) : Option Submission :=
  match (redrawTick s env).1 with
  | .frame _ sub => some sub
  | _ => none

/-- A representative set of surface capabilities for concrete runs. -/
def capsA : SurfaceCapabilities :=
  ⟨2, some 3, some ⟨800, 600⟩, ⟨1, 1⟩, ⟨4096, 4096⟩⟩

/-- Concrete startup state: 2 presentable images on an 800×600 surface. -/
def sInit : RenderState := initState capsA 2

/-- First projection of `redrawTick`, written as a single match on the
rebuild outcome. -/
theorem redrawTick_fst (s : RenderState) (env : TickEnv) :
    (redrawTick s env).1 =
      (match (rebuildStep s env).1 with
       | .panicked => TickResult.panicked
       | .earlyRet s' => .skipped .rebuildUnsupported s'
       | .proceed s1 => acquirePhase s1 env) := by
  unfold redrawTick
  rcases h : rebuildStep s env with ⟨ro, tr⟩
  cases ro <;> simp

/-- The trace of a tick is exactly the trace of its rebuild block. -/
theorem redrawTick_snd (s : RenderState) (env : TickEnv) :
    (redrawTick s env).2 = (rebuildStep s env).2 := by
  unfold redrawTick
  rcases h : rebuildStep s env with ⟨ro, tr⟩
  cases ro <;> simp

/-- Inversion for a tick that produced a frame: the rebuild block must
have proceeded. -/
theorem redrawTick_frame {s s' : RenderState} {env : TickEnv}
    {sub : Submission} (h : (redrawTick s env).1 = .frame s' sub) :
    ∃ s1, (rebuildStep s env).1 = .proceed s1 ∧
      acquirePhase s1 env = .frame s' sub := by
  rw [redrawTick_fst] at h
  rcases hro : (rebuildStep s env).1 with s1 | s0 | _ <;> rw [hro] at h
  · exact ⟨s1, rfl, h⟩
  · exact absurd h (by simp)
  · exact absurd h (by simp)

/-- Inversion for a successful rebuild block: how `proceed` relates the
new state to the old one.  The ghost chain (`prevCovers`, `slotLast`,
`nextFrame`) is untouched by a rebuild. -/
theorem rebuildStep_proceed {s s1 : RenderState} {env : TickEnv}
    (h : (rebuildStep s env).1 = .proceed s1) :
    s1.prevCovers = s.prevCovers ∧ s1.slotLast = s.slotLast ∧
    s1.nextFrame = s.nextFrame ∧ s1.numImages = s.numImages := by
  unfold rebuildStep at h
  cases hf : s.recreateSwapchain
  · rw [hf] at h
    simp at h
    subst h
    exact ⟨rfl, rfl, rfl, rfl⟩
  · rw [hf] at h
    rcases henv : env.rebuildResult
    · rw [henv] at h
      simp at h
      subst h
      exact ⟨rfl, rfl, rfl, rfl⟩
    · rw [henv] at h
      simp at h
    · rw [henv] at h
      simp at h

/-- Inversion for the submit phase when it produced a frame. -/
theorem submitPhase_frame {s2 s' : RenderState} {i a : Nat}
    {fr : FlushResult} {sub : Submission}
    (h : submitPhase s2 i a fr = .frame s' sub) :
    sub = ⟨s2.nextFrame, i, a, s2.prevCovers,
           record s2.framebuffersGen i s2.viewportDims 3 blueClear, fr⟩ ∧
    s'.framebuffersGen = s2.framebuffersGen ∧
    s'.viewportDims = s2.viewportDims ∧
    s'.numImages = s2.numImages ∧
    s'.nextFrame = s2.nextFrame + 1 ∧
    (fr = .ok → s'.prevCovers = s2.nextFrame :: s2.prevCovers ∧
      s'.slotLast = slotUpdate s2.slotLast i s2.nextFrame ∧
      s'.recreateSwapchain = s2.recreateSwapchain) ∧
    (fr = .outOfDate → s'.prevCovers = [] ∧ s'.slotLast = s2.slotLast ∧
      s'.recreateSwapchain = true) ∧
    ((fr = .deviceLost ∨ fr = .otherError) → s'.prevCovers = [] ∧
      s'.slotLast = s2.slotLast ∧ s'.recreateSwapchain = s2.recreateSwapchain) := by
  unfold submitPhase at h
  by_cases hlt : i < s2.numImages
  · rw [if_pos hlt] at h
    cases fr <;> simp_all <;> obtain ⟨rfl, rfl⟩ := h <;> simp
  · rw [if_neg hlt] at h
    exact absurd h (by simp)

/-- Inversion for the acquire phase when it produced a frame: acquisition
succeeded for exactly the image index and acquire signal the submission
records. -/
theorem acquirePhase_frame {s1 s' : RenderState} {env : TickEnv}
    {sub : Submission} (h : acquirePhase s1 env = .frame s' sub) :
    ∃ so, env.acquireResult = .ok sub.imageNum so sub.acquireId ∧
      submitPhase (if so then { s1 with recreateSwapchain := true } else s1)
        sub.imageNum sub.acquireId env.flushResult = .frame s' sub := by
  unfold acquirePhase at h
  rcases hacq : env.acquireResult with ⟨i, so, a⟩ | _ | _ <;> rw [hacq] at h
  · obtain ⟨hsub, -⟩ := submitPhase_frame h
    have hi : sub.imageNum = i := by rw [hsub]
    have ha : sub.acquireId = a := by rw [hsub]
    exact ⟨so, by rw [hi, ha], by rw [hi, ha]; exact h⟩
  · exact absurd h (by simp)
  · exact absurd h (by simp)

/-- C6 (counterexample): the claim says the requested image count equals
clamp(capabilities.min_image_count, 2, capabilities.max), hence is at
least 2.  On capabilities reporting `min_image_count = 1` (legal in
Vulkan) the code of line 68 requests 1 image, while the claimed clamp
yields 2. -/
theorem c6_counterexample :
    selectedNumImages ⟨1, some 3, none, ⟨1, 1⟩, ⟨4096, 4096⟩⟩ = 1 ∧
    specNumImages ⟨1, some 3, none, ⟨1, 1⟩, ⟨4096, 4096⟩⟩ = 2 ∧
    selectedNumImages ⟨1, some 3, none, ⟨1, 1⟩, ⟨4096, 4096⟩⟩ ≠
      specNumImages ⟨1, some 3, none, ⟨1, 1⟩, ⟨4096, 4096⟩⟩ := by
  decide

/-- C6 (amended): at initial swapchain construction the number of
presentable images requested equals `capabilities.min_image_count`
exactly — no lower clamp to 2 is applied.  It never exceeds the
capability maximum only because a valid capability report satisfies
`min_image_count ≤ max`, not because the code clamps. -/
theorem c6_amended (caps : SurfaceCapabilities) :
    selectedNumImages caps = caps.minImageCount ∧
    (∀ m, caps.maxImageCount = some m → caps.minImageCount ≤ m →
      selectedNumImages caps ≤ m) := by
  exact ⟨rfl, fun m _ hle => hle⟩

/-- C6 (witness): the amended theorem applied to concrete capabilities
with `min_image_count = 2` and maximum 3. -/
theorem c6_witness :
    selectedNumImages ⟨2, some 3, none, ⟨1, 1⟩, ⟨9, 9⟩⟩ ≤ 3 :=
  (c6_amended ⟨2, some 3, none, ⟨1, 1⟩, ⟨9, 9⟩⟩).2 3 rfl (by decide)

/-- C7 (counterexample): the claim says that when the surface reports no
current extent, the build uses the caller's desired extent clamped to
the capability bounds.  The code of line 63 instead falls back to the
fixed extent 1280×1024: with no reported extent, desired extent 800×600
and bounds [1×1, 4096×4096], the claimed value is 800×600 but the code
builds at 1280×1024. -/
theorem c7_counterexample :
    selectedDimensions ⟨2, some 3, none, ⟨1, 1⟩, ⟨4096, 4096⟩⟩ =
      ⟨1280, 1024⟩ ∧
    specDimensions ⟨2, some 3, none, ⟨1, 1⟩, ⟨4096, 4096⟩⟩ ⟨800, 600⟩ =
      ⟨800, 600⟩ ∧
    selectedDimensions ⟨2, some 3, none, ⟨1, 1⟩, ⟨4096, 4096⟩⟩ ≠
      specDimensions ⟨2, some 3, none, ⟨1, 1⟩, ⟨4096, 4096⟩⟩ ⟨800, 600⟩ := by
  decide

/-- C7 (amended): the extent used at swapchain build equals
`capabilities.current_extent` whenever the surface reports one;
otherwise it is the fixed fallback 1280×1024, with no clamping to the
capability bounds and no reference to a caller-chosen desired extent. -/
theorem c7_amended (caps : SurfaceCapabilities) :
    (∀ e, caps.currentExtent = some e → selectedDimensions caps = e) ∧
    (caps.currentExtent = none → selectedDimensions caps = ⟨1280, 1024⟩) := by
  constructor
  · intro e he
    simp [selectedDimensions, he]
  · intro he
    simp [selectedDimensions, he]

/-- C7 (witness): the amended theorem applied to capabilities reporting a
current extent of 800×600. -/
theorem c7_witness :
    selectedDimensions ⟨2, some 3, some ⟨800, 600⟩, ⟨1, 1⟩, ⟨4096, 4096⟩⟩ =
      ⟨800, 600⟩ :=
  (c7_amended ⟨2, some 3, some ⟨800, 600⟩, ⟨1, 1⟩, ⟨4096, 4096⟩⟩).1
    ⟨800, 600⟩ rfl

/-- C2: whenever the rebuild block lets a tick reach acquisition, an
out-of-date acquisition result sets the `recreate_swapchain` flag and
ends the tick with no submission recorded (the rebuild is then attempted
on the next tick because the flag is set), while any other acquisition
failure panics (is fatal). -/
theorem c2_theorem (s s1 : RenderState) (env : TickEnv)
    (hpr : (rebuildStep s env).1 = .proceed s1) :
    (env.acquireResult = .outOfDate →
      (redrawTick s env).1 =
        .skipped .acquireOutOfDate { s1 with recreateSwapchain := true } ∧
      subOfTick s env = none) ∧
    (env.acquireResult = .otherError → (redrawTick s env).1 = .panicked) := by
  constructor
  · intro hacq
    have h1 : (redrawTick s env).1 =
        .skipped .acquireOutOfDate { s1 with recreateSwapchain := true } := by
      rw [redrawTick_fst, hpr]
      show acquirePhase s1 env = _
      unfold acquirePhase
      rw [hacq]
    refine ⟨h1, ?_⟩
    unfold subOfTick
    rw [h1]
  · intro hacq
    rw [redrawTick_fst, hpr]
    show acquirePhase s1 env = _
    unfold acquirePhase
    rw [hacq]

/-- C2 (witness): from the startup state (flag clear, so the rebuild
block proceeds unchanged), an out-of-date acquisition skips the tick and
marks the rebuild. -/
theorem c2_witness :
    (redrawTick sInit ⟨.ok, .outOfDate, .ok⟩).1 =
      .skipped .acquireOutOfDate { sInit with recreateSwapchain := true } ∧
    subOfTick sInit ⟨.ok, .outOfDate, .ok⟩ = none :=
  (c2_theorem sInit sInit ⟨.ok, .outOfDate, .ok⟩ (by decide)).1 rfl

/-- C3 (counterexample): the claim says a device-loss class failure of
the submission/present flush is surfaced as fatal from the per-frame
path.  On a concrete tick whose flush fails with `DeviceLost`, the code
(lines 301-304) merely prints the error and continues — the tick does
not panic and still produces its (failed) submission record. -/
theorem c3_counterexample :
    (redrawTick sInit ⟨.ok, .ok 0 false 7, .deviceLost⟩).1 ≠
      TickResult.panicked ∧
    (subOfTick sInit ⟨.ok, .ok 0 false 7, .deviceLost⟩).isSome = true := by
  decide

/-- C3 (amended): an out-of-date or suboptimal outcome marks a rebuild as
needed and is not fatal for the current frame; but a device-loss class
flush failure is NOT surfaced as fatal either — no flush failure is: the
error is logged, the frame chain is reset (`prevCovers = []`), and the
loop continues.  Once a tick reaches submission with an in-bounds image
index, it cannot panic. -/
theorem c3_amended (s s1 : RenderState) (env : TickEnv) (i a : Nat)
    (so : Bool) (hpr : (rebuildStep s env).1 = .proceed s1)
    (hacq : env.acquireResult = .ok i so a) (hlt : i < s1.numImages) :
    (redrawTick s env).1 ≠ .panicked ∧
    ∀ s' sub, (redrawTick s env).1 = .frame s' sub →
      (so = true → s'.recreateSwapchain = true) ∧
      (env.flushResult = .outOfDate → s'.recreateSwapchain = true) ∧
      (env.flushResult = .deviceLost → s'.prevCovers = []) := by
  constructor
  · rw [redrawTick_fst, hpr]
    show acquirePhase s1 env ≠ _
    unfold acquirePhase
    rw [hacq]
    cases so
    · simp only [Bool.false_eq_true, if_false]
      unfold submitPhase
      rw [if_pos hlt]
      cases env.flushResult <;> simp
    · simp only [if_true]
      unfold submitPhase
      rw [if_pos (show i < ({ s1 with recreateSwapchain := true } : RenderState).numImages from hlt)]
      cases env.flushResult <;> simp
  · intro s' sub h
    obtain ⟨s1b, hprb, hacqp⟩ := redrawTick_frame h
    have hs1 : s1 = s1b := by
      have := hpr.symm.trans hprb
      injection this
    subst hs1
    obtain ⟨so2, hacq2, hsp⟩ := acquirePhase_frame hacqp
    rw [hacq] at hacq2
    injection hacq2 with hi hso ha
    subst hso
    obtain ⟨hsub, hfb, hvp, hni, hnf, hok, hood, herr⟩ := submitPhase_frame hsp
    refine ⟨?_, ?_, ?_⟩
    · intro hsotrue
      subst hsotrue
      rcases henvf : env.flushResult
      · exact (hok henvf).2.2
      · exact (hood henvf).2.2
      · exact (herr (Or.inl henvf)).2.2
      · exact (herr (Or.inr henvf)).2.2
    · intro hf
      exact (hood hf).2.2
    · intro hf
      exact (herr (Or.inl hf)).1

/-- C3 (witness): the amended theorem at a concrete tick whose
acquisition reports suboptimal and whose flush reports out-of-date: the
tick is not fatal. -/
theorem c3_witness :
    (redrawTick sInit ⟨.ok, .ok 0 true 7, .outOfDate⟩).1 ≠
      TickResult.panicked :=
  (c3_amended sInit sInit ⟨.ok, .ok 0 true 7, .outOfDate⟩ 0 7 true
    (by decide) rfl (by decide)).1

/-- C9: every frame's command sequence is the pure `record` function
applied to the tick's framebuffer (generation and acquired index),
viewport, 3-vertex geometry buffer and fixed clear colour — a fresh
builder is created each tick, so no recorder state persists across
frames — and it contains exactly one render-pass begin, one draw and one
render-pass end, with the draw sized to the viewport. -/
theorem c9_theorem (s s' : RenderState) (env : TickEnv) (sub : Submission)
    (h : (redrawTick s env).1 = .frame s' sub) :
    sub.commands =
      record s'.framebuffersGen sub.imageNum s'.viewportDims 3 blueClear ∧
    sub.commands.countP RecordOp.isBegin = 1 ∧
    sub.commands.countP RecordOp.isDraw = 1 ∧
    sub.commands.countP RecordOp.isEnd = 1 ∧
    RecordOp.draw s'.viewportDims 3 ∈ sub.commands := by
  obtain ⟨s1, hpr, hacqp⟩ := redrawTick_frame h
  obtain ⟨so, hacq, hsp⟩ := acquirePhase_frame hacqp
  obtain ⟨hsub, hfb, hvp, -, -, -, -, -⟩ := submitPhase_frame hsp
  have hc : sub.commands =
      record s'.framebuffersGen sub.imageNum s'.viewportDims 3 blueClear := by
    rw [hfb, hvp, hsub]
  refine ⟨hc, ?_, ?_, ?_, ?_⟩
  · rw [hc]; rfl
  · rw [hc]; rfl
  · rw [hc]; rfl
  · rw [hc]; simp [record]

/-- Environment of the concrete C9 run: a clean frame on image 1. -/
def c9env : TickEnv := ⟨.ok, .ok 1 false 9, .ok⟩

/-- State after the concrete C9 run. -/
def c9s : RenderState := afterTick sInit c9env

/-- The submission the concrete C9 run records. -/
def c9sub : Submission :=
  ⟨0, 1, 9, [], record 0 1 ⟨800, 600⟩ 3 blueClear, .ok⟩

/-- C9 (witness): the concrete run draws exactly once. -/
theorem c9_witness : c9sub.commands.countP RecordOp.isDraw = 1 :=
  (c9_theorem sInit c9s c9env c9sub (by decide)).2.2.1

/-- Per-slot wait invariant: every image slot's last successfully flushed
submission is still covered by the `previous_frame_end` chain.  It holds
at startup and is preserved by successful frames, but a failed flush
resets the chain (lines 297-304) and breaks it. -/
def slotWaitInv (s : RenderState) : Prop :=
  ∀ p ∈ s.slotLast, p.2 ∈ s.prevCovers

instance (s : RenderState) : Decidable (slotWaitInv s) := by
  unfold slotWaitInv
  infer_instance

/-- C1 (amended): as long as the frame chain has not been reset by a
flush failure (the `slotWaitInv` invariant), every submitted frame is
ordered after its own acquire signal, its wait set is exactly the chain
`previous_frame_end` covers, that chain contains the previously recorded
submission-done signal for the acquired image slot, and a successful
flush re-establishes the invariant.  After a flush failure the chain
restarts from `sync::now`, so subsequent submissions are no longer
ordered against pre-reset per-slot signals (see the counterexample). -/
theorem c1_amended (s s' : RenderState) (env : TickEnv) (sub : Submission)
    (hinv : slotWaitInv s) (h : (redrawTick s env).1 = .frame s' sub) :
    (∃ so, env.acquireResult = .ok sub.imageNum so sub.acquireId) ∧
    sub.waitFrames = s.prevCovers ∧
    (∀ f, slotLookup s.slotLast sub.imageNum = some f → f ∈ sub.waitFrames) ∧
    (sub.flush = .ok → slotWaitInv s') := by
  obtain ⟨s1, hpr, hacqp⟩ := redrawTick_frame h
  obtain ⟨hpc, hsl, hnf, hni⟩ := rebuildStep_proceed hpr
  obtain ⟨so, hacq, hsp⟩ := acquirePhase_frame hacqp
  obtain ⟨hsub, hfb, hvp, hni2, hnf2, hok, hood, herr⟩ := submitPhase_frame hsp
  set s2 := (if so then { s1 with recreateSwapchain := true } else s1) with hs2
  have h2pc : s2.prevCovers = s.prevCovers := by
    cases so <;> simp [hs2, hpc]
  have h2sl : s2.slotLast = s.slotLast := by
    cases so <;> simp [hs2, hsl]
  have hwf : sub.waitFrames = s.prevCovers := by
    rw [hsub]
    exact h2pc
  refine ⟨⟨so, hacq⟩, hwf, ?_, ?_⟩
  · intro f hf
    rw [hwf]
    unfold slotLookup at hf
    obtain ⟨p, hfind, hp2⟩ := Option.map_eq_some'.mp hf
    have hmem : p ∈ s.slotLast := List.mem_of_find?_eq_some hfind
    rw [← hp2]
    exact hinv p hmem
  · intro hfl
    have hfr : env.flushResult = .ok := by
      rw [hsub] at hfl
      exact hfl
    obtain ⟨hpcov, hslast, -⟩ := hok hfr
    intro p hp
    rw [hslast] at hp
    rw [hpcov]
    unfold slotUpdate at hp
    rcases List.mem_cons.mp hp with hpe | hpf
    · subst hpe
      exact List.mem_cons_self _ _
    · have hmem : p ∈ s2.slotLast := List.mem_of_mem_filter hpf
      have h3 : p.2 ∈ s2.prevCovers := by
        rw [h2sl] at hmem
        rw [h2pc]
        exact hinv p hmem
      exact List.mem_cons_of_mem _ h3

/-- State after one clean frame from startup. -/
def c1ws : RenderState := afterTick sInit ⟨.ok, .ok 0 false 5, .ok⟩

/-- C1 (witness): the amended theorem on a concrete clean first frame —
the successful flush re-establishes the per-slot wait invariant. -/
theorem c1_witness : slotWaitInv c1ws :=
  (c1_amended sInit c1ws ⟨.ok, .ok 0 false 5, .ok⟩
    ⟨0, 0, 5, [], record 0 0 ⟨800, 600⟩ 3 blueClear, .ok⟩
    (by decide) (by decide)).2.2.2 rfl

/-- Environment of the first tick of the C1/C4 concrete run: clean frame
on slot 0. -/
def tickEnv1 : TickEnv := ⟨.ok, .ok 0 false 100, .ok⟩

/-- Second tick: the frame on slot 1 fails to flush (out-of-date), which
resets `previous_frame_end` to `sync::now` (line 299). -/
def tickEnv2 : TickEnv := ⟨.ok, .ok 1 false 101, .outOfDate⟩

/-- Third tick: rebuild succeeds, slot 0 is acquired again and flushes. -/
def tickEnv3 : TickEnv := ⟨.ok, .ok 0 false 102, .ok⟩

/-- Loop state after the first concrete tick. -/
def sAfter1 : RenderState := afterTick sInit tickEnv1

/-- Loop state after the second concrete tick (chain reset). -/
def sAfter2 : RenderState := afterTick sAfter1 tickEnv2

/-- Fallback submission used to read `Option Submission` values. -/
def subDefault : Submission := ⟨0, 0, 0, [], [], .ok⟩

/-- C1 (counterexample): the claim says every frame's submission waits on
the previously recorded submission-done signal for its image slot.
Concretely: tick 1 submits frame 0 to slot 0 and flushes successfully;
tick 2's flush fails, so line 299 resets `previous_frame_end` to
`sync::now`; tick 3 then submits to slot 0 again, but its wait set is
empty — it is not ordered after slot 0's previously recorded
submission-done signal (frame 0), refuting the claim. -/
theorem c1_counterexample :
    (subOfTick sInit tickEnv1).isSome = true ∧
    ((subOfTick sInit tickEnv1).getD subDefault).imageNum = 0 ∧
    ((subOfTick sInit tickEnv1).getD subDefault).flush = .ok ∧
    slotLookup sAfter2.slotLast 0 = some 0 ∧
    (subOfTick sAfter2 tickEnv3).isSome = true ∧
    ((subOfTick sAfter2 tickEnv3).getD subDefault).imageNum = 0 ∧
    ((subOfTick sAfter2 tickEnv3).getD subDefault).flush = .ok ∧
    ¬ (0 ∈ ((subOfTick sAfter2 tickEnv3).getD subDefault).waitFrames) := by
  decide

/-- C4 (counterexample): the claim says terminating the loop blocks until
every outstanding submission-done signal resolves before releasing the
resource sets.  Concretely, after one clean frame, frame 0's
submission-done signal is outstanding (`prevCovers = [0]`), yet the
`CloseRequested` handler (lines 214-216) waits on nothing at all — it
only sets `ControlFlow::Exit`. -/
theorem c4_counterexample :
    sAfter1.prevCovers = [0] ∧
    (handleCloseRequested sAfter1).waitedFrames = [] ∧
    ¬ (0 ∈ (handleCloseRequested sAfter1).waitedFrames) := by
  decide

/-- C4 (amended): the `CloseRequested` arm only requests exit from the
event loop; it performs no wait on any outstanding submission-done
signal and leaves the loop state — swapchain resource sets and pending
signals included — untouched.  Any waiting or release happens only
implicitly when the closure's captured state is dropped outside the
loop's own code. -/
theorem c4_amended (s : RenderState) :
    (handleCloseRequested s).exitRequested = true ∧
    (handleCloseRequested s).waitedFrames = [] ∧
    (handleCloseRequested s).state = s :=
  ⟨rfl, rfl, rfl⟩

/-- C5 (counterexample): the claim says the new resource set (swapchain
plus framebuffers) is constructed fully before the old one is replaced.
On a concrete successful rebuild the trace contains exactly one
swapchain installation, but construction ops do NOT all precede
replacement ops: the old swapchain is replaced (line 240) before the new
framebuffers are built (line 243). -/
theorem c5_counterexample :
    rebuildsDone (rebuildStep { sInit with recreateSwapchain := true }
      ⟨.ok, .outOfDate, .ok⟩).2 = 1 ∧
    buildsPrecedeReplaces false (rebuildStep { sInit with recreateSwapchain := true }
      ⟨.ok, .outOfDate, .ok⟩).2 = false := by
  decide

/-- C5 (amended): the only recoverable rebuild failure (unsupported
dimensions) aborts before anything is replaced — the block returns with
the previous swapchain, framebuffers and viewport unchanged and the flag
still set, and its trace contains no replacement op — so a failed
rebuild leaves the previous set usable.  On a successful rebuild the new
swapchain is fully built (and its images wrapped) before the old
swapchain is replaced, but the new framebuffers are constructed only
after that replacement, as the trace shows. -/
theorem c5_amended (s : RenderState) (env : TickEnv)
    (hflag : s.recreateSwapchain = true) :
    (env.rebuildResult = .unsupportedDimensions →
      (rebuildStep s env).1 = .earlyRet s ∧
      (redrawTick s env).1 = .skipped .rebuildUnsupported s ∧
      ((rebuildStep s env).2.all fun op => !op.isReplace) = true) ∧
    (env.rebuildResult = .ok →
      (rebuildStep s env).2 =
        [.buildSwapchain s.windowSize, .buildImageViews, .replaceSwapchain,
         .setViewport s.windowSize, .buildFramebuffers, .replaceFramebuffers,
         .clearFlag]) := by
  constructor
  · intro hr
    have h1 : rebuildStep s env = (.earlyRet s, [.buildSwapchain s.windowSize]) := by
      simp [rebuildStep, hflag, hr]
    have h2 : (rebuildStep s env).1 = .earlyRet s := by rw [h1]
    refine ⟨h2, ?_, ?_⟩
    · rw [redrawTick_fst, h2]
    · rw [h1]
      rfl
  · intro hr
    simp [rebuildStep, hflag, hr]

/-- C5 (witness): a concrete failed rebuild (unsupported dimensions)
skips the tick with the previous state intact. -/
theorem c5_witness :
    (redrawTick { sInit with recreateSwapchain := true }
        ⟨.unsupportedDimensions, .outOfDate, .ok⟩).1 =
      .skipped .rebuildUnsupported { sInit with recreateSwapchain := true } :=
  ((c5_amended { sInit with recreateSwapchain := true }
      ⟨.unsupportedDimensions, .outOfDate, .ok⟩ rfl).1 rfl).2.1

/-- Fields of the loop state that a resize notification never touches. -/
theorem foldResize_fields (es : List Extent) (s : RenderState) :
    (es.foldl handleResize s).swapchainGen = s.swapchainGen ∧
    (es.foldl handleResize s).framebuffersGen = s.framebuffersGen ∧
    (es.foldl handleResize s).viewportDims = s.viewportDims ∧
    (es.foldl handleResize s).prevCovers = s.prevCovers ∧
    (es.foldl handleResize s).slotLast = s.slotLast ∧
    (es.foldl handleResize s).nextFrame = s.nextFrame ∧
    (es.foldl handleResize s).numImages = s.numImages ∧
    (es.foldl handleResize s).swapchainExtent = s.swapchainExtent := by
  induction es generalizing s with
  | nil => exact ⟨rfl, rfl, rfl, rfl, rfl, rfl, rfl, rfl⟩
  | cons e rest ih =>
      simp only [List.foldl_cons]
      exact ih (handleResize s e)

/-- C8: a burst of resize notifications ending in extent `e` only sets
the pending-rebuild flag and records the window's new size — no rebuild,
no swapchain or framebuffer change, no frame chain change happens during
the burst — and the next redraw poll (when its rebuild succeeds)
performs exactly one rebuild, at the latest extent `e`. -/
theorem c8_theorem (s : RenderState) (es es0 : List Extent) (e : Extent)
    (env : TickEnv) (heq : es = es0 ++ [e]) (hok : env.rebuildResult = .ok) :
    ((es.foldl handleResize s).recreateSwapchain = true ∧
     (es.foldl handleResize s).windowSize = e ∧
     (es.foldl handleResize s).swapchainGen = s.swapchainGen ∧
     (es.foldl handleResize s).framebuffersGen = s.framebuffersGen ∧
     (es.foldl handleResize s).viewportDims = s.viewportDims ∧
     (es.foldl handleResize s).prevCovers = s.prevCovers) ∧
    rebuildsDone (redrawTick (es.foldl handleResize s) env).2 = 1 ∧
    rebuildAttempts (redrawTick (es.foldl handleResize s) env).2 = [e] := by
  subst heq
  have hfold : (es0 ++ [e]).foldl handleResize s =
      handleResize (es0.foldl handleResize s) e := by
    rw [List.foldl_append]
    rfl
  obtain ⟨h1, h2, h3, h4, -, -, -, -⟩ := foldResize_fields es0 s
  rw [hfold]
  have htr : (redrawTick (handleResize (es0.foldl handleResize s) e) env).2 =
      [.buildSwapchain e, .buildImageViews, .replaceSwapchain, .setViewport e,
       .buildFramebuffers, .replaceFramebuffers, .clearFlag] := by
    rw [redrawTick_snd]
    simp [rebuildStep, handleResize, hok]
  refine ⟨⟨rfl, rfl, h1, h2, h3, h4⟩, ?_, ?_⟩
  · rw [htr]
    rfl
  · rw [htr]
    rfl

/-- C8 (witness): two rapid resizes then one poll rebuild exactly once,
at the second extent. -/
theorem c8_witness :
    rebuildAttempts (redrawTick
        ([⟨100, 100⟩, ⟨200, 150⟩].foldl handleResize sInit)
        ⟨.ok, .outOfDate, .ok⟩).2 = [⟨200, 150⟩] :=
  (c8_theorem sInit [⟨100, 100⟩, ⟨200, 150⟩] [⟨100, 100⟩] ⟨200, 150⟩
    ⟨.ok, .outOfDate, .ok⟩ rfl rfl).2.2

/-- C10: when a rebuild attempt fails with unsupported dimensions, the
tick returns early with the state — pending-rebuild flag included —
exactly as it was (so the rebuild is re-attempted at the next tick) and
no acquisition or submission happens; and as long as the rebuild does
not succeed, the flag can never become clear. -/
theorem c10_theorem (s : RenderState) (env : TickEnv)
    (hflag : s.recreateSwapchain = true) :
    (env.rebuildResult = .unsupportedDimensions →
      (redrawTick s env).1 = .skipped .rebuildUnsupported s ∧
      subOfTick s env = none ∧
      afterTick s env = s) ∧
    (env.rebuildResult ≠ .ok →
      (afterTick s env).recreateSwapchain = true) := by
  constructor
  · intro hr
    have h1 : (redrawTick s env).1 = .skipped .rebuildUnsupported s := by
      rw [redrawTick_fst]
      have h2 : (rebuildStep s env).1 = .earlyRet s := by
        simp [rebuildStep, hflag, hr]
      rw [h2]
    refine ⟨h1, ?_, ?_⟩
    · unfold subOfTick
      rw [h1]
    · unfold afterTick
      rw [h1]
  · intro hne
    rcases hr : env.rebuildResult
    · exact absurd hr hne
    · have h1 : (redrawTick s env).1 = .skipped .rebuildUnsupported s := by
        rw [redrawTick_fst]
        have h2 : (rebuildStep s env).1 = .earlyRet s := by
          simp [rebuildStep, hflag, hr]
        rw [h2]
      unfold afterTick
      rw [h1]
      exact hflag
    · have h1 : (redrawTick s env).1 = .panicked := by
        rw [redrawTick_fst]
        have h2 : (rebuildStep s env).1 = .panicked := by
          simp [rebuildStep, hflag, hr]
        rw [h2]
      unfold afterTick
      rw [h1]
      exact hflag

/-- C10 (witness): a concrete failed rebuild leaves the state, flag
included, unchanged for the next tick. -/
theorem c10_witness :
    afterTick { sInit with recreateSwapchain := true }
        ⟨.unsupportedDimensions, .ok 0 false 3, .ok⟩ =
      { sInit with recreateSwapchain := true } :=
  ((c10_theorem { sInit with recreateSwapchain := true }
      ⟨.unsupportedDimensions, .ok 0 false 3, .ok⟩ rfl).1 rfl).2.2
